import Mathlib

/-!
Shallow embedding of the persisted record-collection managers
(`src/1.py`: `GamingComputer` / `ComputerManager`,
 `src/4.py`: `Movie` / `MovieManager`,
 `src/5.py`: `SportsEquipment` / `InventoryManager`).

Records are Lean structures mirroring the Python dataclasses; the
manager's mutable `self.computers` / `self.movies` / `self.items` list is
passed explicitly, each mutating method returning the new list together
with its outcome and whether `save_data` was invoked.  Python `int`
fields become `Int`, `float` fields become `ℚ`, JSON dictionaries become
structures of `Option`-valued fields (a missing key is `none`).
-/

namespace Spec2Proof

/-- `GamingComputer` dataclass of `src/1.py`. -/
structure GamingComputer where
  id : Int
  model : String
  processor : String
  ram : Int
  ssd : Int
  graphics_card : String
  price : ℚ
  is_on_sale : Bool := false
deriving DecidableEq, Repr

/-- Outcome reported by `ComputerManager.add_computer`: either the record was
appended, or a `ValueError` for a duplicate id was raised. -/
inductive AddOutcome where
  | added
  | duplicateId
deriving DecidableEq, Repr

/-- `ComputerManager.add_computer` (src/1.py lines 119–125): raises on a
duplicate id before touching the list, otherwise appends and saves. -/
def add_computer (computers : List GamingComputer) (computer : GamingComputer) :
    List GamingComputer × AddOutcome :=
  if computers.any (fun c => c.id == computer.id) then
    (computers, AddOutcome.duplicateId)
  else
    (computers ++ [computer], AddOutcome.added)

/-- Outcome reported by `ComputerManager.delete_by_id`. -/
inductive DeleteOutcome where
  | deleted
  | notFound
deriving DecidableEq, Repr

/-- `ComputerManager.delete_by_id` (src/1.py lines 127–135): filters out every
record with the given id; saves exactly when the length shrank.  Returns the
new list, the outcome, and whether `save_data` ran. -/
def delete_by_id (computers : List GamingComputer) (computer_id : Int) :
    List GamingComputer × DeleteOutcome × Bool :=
  let remaining := computers.filter (fun c => c.id != computer_id)
  if remaining.length < computers.length then
    (remaining, DeleteOutcome.deleted, true)
  else
    (remaining, DeleteOutcome.notFound, false)

/-- Outcome reported by `ComputerManager.mark_as_sale`. -/
inductive SaleOutcome where
  | marked
  | alreadyOnSale
  | notFound
deriving DecidableEq, Repr

/-- `ComputerManager.mark_as_sale` (src/1.py lines 156–168): finds the first
record with the given id; if it is not yet on sale, sets the flag and
multiplies the price by 0.9 (and saves); if it is already on sale, reports so
and changes nothing. -/
def mark_as_sale : List GamingComputer → Int → List GamingComputer × SaleOutcome
  | [], _ => ([], SaleOutcome.notFound)
  | c :: rest, computer_id =>
    if c.id == computer_id then
      if !c.is_on_sale then
        ({ c with is_on_sale := true, price := c.price * (9 / 10) } :: rest,
         SaleOutcome.marked)
      else
        (c :: rest, SaleOutcome.alreadyOnSale)
    else
      let r := mark_as_sale rest computer_id
      (c :: r.1, r.2)

/-- `ComputerManager.upgrade_ram` (src/1.py lines 146–154): finds the first
record with the given id and adds `additional_ram` to its `ram`
unconditionally (no sign or negativity check), then saves.  Returns the new
list and whether a record was found (= whether `save_data` ran). -/
def upgrade_ram : List GamingComputer → Int → Int → List GamingComputer × Bool
  | [], _, _ => ([], false)
  | c :: rest, computer_id, additional_ram =>
    if c.id == computer_id then
      ({ c with ram := c.ram + additional_ram } :: rest, true)
    else
      let r := upgrade_ram rest computer_id additional_ram
      (c :: r.1, r.2)

/-- `Condition` enum of `src/5.py`, in class-body order. -/
inductive Condition where
  | NEW
  | GOOD
  | WORN
  | NEEDS_REPAIR
deriving DecidableEq, Repr

/-- The `.value` string of each `Condition` member. -/
def Condition.value : Condition → String
  | Condition.NEW => "новый"
  | Condition.GOOD => "хороший"
  | Condition.WORN => "изношенный"
  | Condition.NEEDS_REPAIR => "требует ремонта"

/-- Iteration order of `for c in Condition` (member declaration order). -/
def conditionMembers : List Condition :=
  [Condition.NEW, Condition.GOOD, Condition.WORN, Condition.NEEDS_REPAIR]

/-- `next((c for c in Condition if c.value == condition_value), Condition.GOOD)`
from `SportsEquipment.from_dict` (src/5.py line 55): first member whose value
matches, defaulting to `GOOD`. -/
def conditionFromValue (condition_value : String) : Condition :=
  (conditionMembers.find? (fun c => c.value == condition_value)).getD Condition.GOOD

/-- `SportsEquipment` dataclass of `src/5.py`. -/
structure SportsEquipment where
  id : Int
  name : String
  sport_type : String
  weight : ℚ
  price : ℚ
  quantity : Int
  condition : Condition
deriving DecidableEq, Repr

/-- `InventoryManager.write_off` (src/5.py lines 143–169): finds the first
item with the given id; fails (returning `false`, list unchanged, no save) if
none is found, if the quantity to write off is not positive, or if the stock
is insufficient; otherwise subtracts and saves (returning `true`). -/
def write_off : List SportsEquipment → Int → Int → List SportsEquipment × Bool
  | [], _, _ => ([], false)
  | item :: rest, item_id, quantity =>
    if item.id == item_id then
      if quantity ≤ 0 then
        (item :: rest, false)
      else if item.quantity < quantity then
        (item :: rest, false)
      else
        ({ item with quantity := item.quantity - quantity } :: rest, true)
    else
      let r := write_off rest item_id quantity
      (item :: r.1, r.2)

/-- The per-item step of `InventoryManager.mark_for_repair` (src/5.py lines
186–189): an item is re-marked exactly when its condition is neither `NEW`
nor `NEEDS_REPAIR`. -/
def repairStep (item : SportsEquipment) : SportsEquipment × Bool :=
  if item.condition ≠ Condition.NEW ∧ item.condition ≠ Condition.NEEDS_REPAIR then
    ({ item with condition := Condition.NEEDS_REPAIR }, true)
  else
    (item, false)

/-- `InventoryManager.mark_for_repair` (src/5.py lines 180–197): walks the
list in order, re-marking items via `repairStep` and collecting the marked
ones; returns the new list and the marked sublist (`save_data` runs iff the
marked sublist is nonempty). -/
def mark_for_repair : List SportsEquipment → List SportsEquipment × List SportsEquipment
  | [] => ([], [])
  | item :: rest =>
    let s := repairStep item
    let r := mark_for_repair rest
    (s.1 :: r.1, if s.2 then s.1 :: r.2 else r.2)

/-- `Movie` dataclass of `src/4.py`. -/
structure Movie where
  id : Int
  title : String
  year : Int
  genre : String
  duration : Int
  rating : ℚ
  price : ℚ
  is_epic : Bool := false
deriving DecidableEq, Repr

/-- JSON object produced/consumed for a `GamingComputer`; a missing key is
`none`. -/
structure GCDict where
  id : Option Int
  model : Option String
  processor : Option String
  ram : Option Int
  ssd : Option Int
  graphics_card : Option String
  price : Option ℚ
  is_on_sale : Option Bool
deriving DecidableEq, Repr

/-- `GamingComputer.to_dict` (src/1.py lines 25–36): every field is written. -/
def GamingComputer.to_dict (c : GamingComputer) : GCDict :=
  ⟨some c.id, some c.model, some c.processor, some c.ram, some c.ssd,
   some c.graphics_card, some c.price, some c.is_on_sale⟩

/-- `GamingComputer.from_dict` (src/1.py lines 38–50): the first seven keys
are read with `data[...]` (a `KeyError`, modelled as `none`, if absent) and
`is_on_sale` with `data.get(..., False)`. -/
def GamingComputer.from_dict (data : GCDict) : Option GamingComputer :=
  match data.id, data.model, data.processor, data.ram, data.ssd,
      data.graphics_card, data.price with
  | some i, some m, some p, some r, some s, some g, some pr =>
    some ⟨i, m, p, r, s, g, pr, data.is_on_sale.getD false⟩
  | _, _, _, _, _, _, _ => none

/-- JSON object produced/consumed for a `SportsEquipment`. -/
structure SEDict where
  id : Option Int
  name : Option String
  sport_type : Option String
  weight : Option ℚ
  price : Option ℚ
  quantity : Option Int
  condition : Option String
deriving DecidableEq, Repr

/-- `SportsEquipment.to_dict` (src/5.py lines 38–48): `condition` is written
as its `.value` string. -/
def SportsEquipment.to_dict (e : SportsEquipment) : SEDict :=
  ⟨some e.id, some e.name, some e.sport_type, some e.weight, some e.price,
   some e.quantity, some e.condition.value⟩

/-- `SportsEquipment.from_dict` (src/5.py lines 50–65): all keys are read
with `data[...]`; the condition string is mapped back through
`conditionFromValue` (default `GOOD`). -/
def SportsEquipment.from_dict (data : SEDict) : Option SportsEquipment :=
  match data.id, data.name, data.sport_type, data.weight, data.price,
      data.quantity, data.condition with
  | some i, some n, some st, some w, some p, some q, some cv =>
    some ⟨i, n, st, w, p, q, conditionFromValue cv⟩
  | _, _, _, _, _, _, _ => none

/-- JSON object produced/consumed for a `Movie`. -/
structure MovieDict where
  id : Option Int
  title : Option String
  year : Option Int
  genre : Option String
  duration : Option Int
  rating : Option ℚ
  price : Option ℚ
  is_epic : Option Bool
deriving DecidableEq, Repr

/-- `Movie.to_dict` (src/4.py lines 26–37). -/
def Movie.to_dict (m : Movie) : MovieDict :=
  ⟨some m.id, some m.title, some m.year, some m.genre, some m.duration,
   some m.rating, some m.price, some m.is_epic⟩

/-- `Movie.from_dict` (src/4.py lines 39–51): first seven keys required,
`is_epic` via `data.get(..., False)`. -/
def Movie.from_dict (data : MovieDict) : Option Movie :=
  match data.id, data.title, data.year, data.genre, data.duration,
      data.rating, data.price with
  | some i, some t, some y, some g, some d, some r, some p =>
    some ⟨i, t, y, g, d, r, p, data.is_epic.getD false⟩
  | _, _, _, _, _, _, _ => none

/-- `ComputerManager.save_data` (src/1.py lines 76–80), up to the JSON text
layer: the document is the ordered array of per-record dictionaries. -/
def save_computers (computers : List GamingComputer) : List GCDict :=
  computers.map GamingComputer.to_dict

/-- The happy path of `ComputerManager.load_data` (src/1.py lines 61–67):
each dictionary of the document is rebuilt with `from_dict`; a failing
record (missing key) fails the whole load. -/
def load_computers (data : List GCDict) : Option (List GamingComputer) :=
  data.mapM GamingComputer.from_dict

/-- `InventoryManager.save_data` (src/5.py lines 92–96), up to JSON text. -/
def save_items (items : List SportsEquipment) : List SEDict :=
  items.map SportsEquipment.to_dict

/-- The happy path of `InventoryManager.load_data` (src/5.py lines 76–83). -/
def load_items (data : List SEDict) : Option (List SportsEquipment) :=
  data.mapM SportsEquipment.from_dict

/-- Python's `str.lower()` applied characterwise to the character list of a
string (the searches of src/1.py and src/4.py compare lowered strings). -/
def lowerChars (s : String) : List Char :=
  s.toList.map Char.toLower

/-- `leadsWith n h`: the character list `h` starts with `n`. -/
def leadsWith : List Char → List Char → Bool
  | [], _ => true
  | _ :: _, [] => false
  | a :: as, b :: bs => a == b && leadsWith as bs

/-- Python's `needle in hay` substring test, on character lists: some suffix
of `hay` starts with `needle`. -/
def charSub (needle : List Char) : List Char → Bool
  | [] => needle.isEmpty
  | h@(_ :: t) => leadsWith needle h || charSub needle t

/-- `needle.lower() in hay.lower()` as used by the text criteria of
`search_by_criteria` (src/1.py line 107) and
`search_by_year_range_and_genre` (src/4.py line 127). -/
def containsLower (needle hay : String) : Bool :=
  charSub (lowerChars needle) (lowerChars hay)

/-- `ComputerManager.search_by_criteria` (src/1.py lines 95–109): four
optional criteria applied as successive list filters; the graphics criterion
is skipped when the string is falsy (absent or empty). -/
def search_by_criteria (computers : List GamingComputer)
    (min_ram : Option Int) (max_price : Option ℚ) (min_ssd : Option Int)
    (graphics_required : Option String) : List GamingComputer :=
  let results := computers
  let results := match min_ram with
    | some r => results.filter (fun c => r ≤ c.ram)
    | none => results
  let results := match max_price with
    | some p => results.filter (fun c => c.price ≤ p)
    | none => results
  let results := match min_ssd with
    | some s => results.filter (fun c => s ≤ c.ssd)
    | none => results
  let results := match graphics_required with
    | some g =>
      if g.isEmpty then results
      else results.filter (fun c => containsLower g c.graphics_card)
    | none => results
  results

/-- `MovieManager.search_by_year_range_and_genre` (src/4.py lines 112–129):
year-from, year-to and genre-substring criteria applied as successive
filters; the genre criterion is skipped when the string is falsy. -/
def search_by_year_range_and_genre (movies : List Movie)
    (year_from year_to : Option Int) (genre : Option String) : List Movie :=
  let results := movies
  let results := match year_from with
    | some y => results.filter (fun m => y ≤ m.year)
    | none => results
  let results := match year_to with
    | some y => results.filter (fun m => m.year ≤ y)
    | none => results
  let results := match genre with
    | some g =>
      if g.isEmpty then results
      else results.filter (fun m => containsLower g m.genre)
    | none => results
  results

/-- `ComputerManager.sort_by_price` (src/1.py lines 111–113):
`sorted(self.computers, key=lambda x: x.price, reverse=not ascending)`.
Python's `sorted` is a stable sort; with `reverse=True` it is the stable
sort by the reversed key order (ties keep original relative order in both
directions), so it is embedded as a stable insertion sort under the
corresponding key comparison. -/
def sort_by_price (computers : List GamingComputer) (ascending : Bool) :
    List GamingComputer :=
  if ascending then
    List.insertionSort (fun a b => a.price ≤ b.price) computers
  else
    List.insertionSort (fun a b => b.price ≤ a.price) computers

/-- `MovieManager.sort_by_duration` (src/4.py lines 131–133):
`sorted(self.movies, key=lambda x: x.duration, reverse=not ascending)`,
embedded like `sort_by_price`. -/
def sort_by_duration (movies : List Movie) (ascending : Bool) : List Movie :=
  if ascending then
    List.insertionSort (fun a b => a.duration ≤ b.duration) movies
  else
    List.insertionSort (fun a b => b.duration ≤ a.duration) movies

/-! ### Helper lemmas and sample records -/

/-- Sample record (src/1.py line 85). -/
def compA : GamingComputer :=
  ⟨1, "GameMaster Pro", "Intel i9-13900K", 32, 1000, "NVIDIA RTX 4090", 250000, false⟩

/-- Sample record (src/1.py line 86). -/
def compB : GamingComputer :=
  ⟨2, "Striker Elite", "AMD Ryzen 9 7950X", 64, 2000, "NVIDIA RTX 4080", 320000, false⟩

/-- A record sharing `compA`'s id with different remaining fields. -/
def compDup : GamingComputer :=
  ⟨1, "PowerPlay", "Intel i7-13700K", 16, 512, "NVIDIA RTX 4070", 150000, false⟩

theorem gc_from_to (c : GamingComputer) :
    GamingComputer.from_dict (GamingComputer.to_dict c) = some c := rfl

theorem movie_from_to (m : Movie) :
    Movie.from_dict (Movie.to_dict m) = some m := rfl

theorem conditionFromValue_value (c : Condition) :
    conditionFromValue (Condition.value c) = c := by
  cases c <;> rfl

theorem se_from_to (e : SportsEquipment) :
    SportsEquipment.from_dict (SportsEquipment.to_dict e) = some e := by
  have h : SportsEquipment.from_dict (SportsEquipment.to_dict e)
      = some ⟨e.id, e.name, e.sport_type, e.weight, e.price, e.quantity,
              conditionFromValue (Condition.value e.condition)⟩ := rfl
  rw [h, conditionFromValue_value]

theorem load_save_computers (computers : List GamingComputer) :
    load_computers (save_computers computers) = some computers := by
  simp only [load_computers, save_computers, ← List.mapM'_eq_mapM]
  induction computers with
  | nil => rfl
  | cons c t ih => simp [List.mapM', gc_from_to, ih]

theorem load_save_items (items : List SportsEquipment) :
    load_items (save_items items) = some items := by
  simp only [load_items, save_items, ← List.mapM'_eq_mapM]
  induction items with
  | nil => rfl
  | cons e t ih => simp [List.mapM', se_from_to, ih]

/-! ### Claim theorems -/

/-- C1: `add_computer` with a duplicate id signals the duplicate-identifier
failure and leaves the collection (length and contents) unchanged; with a
fresh id it appends the record at the end of the collection. -/
theorem add_computer_duplicate_or_append
    (computers : List GamingComputer) (computer : GamingComputer) :
    ((∃ c ∈ computers, c.id = computer.id) →
      add_computer computers computer = (computers, AddOutcome.duplicateId)) ∧
    ((∀ c ∈ computers, c.id ≠ computer.id) →
      add_computer computers computer = (computers ++ [computer], AddOutcome.added)) := by
  constructor
  · rintro ⟨c, hc, hid⟩
    have : computers.any (fun c => c.id == computer.id) = true :=
      List.any_eq_true.2 ⟨c, hc, by simpa using hid⟩
    simp [add_computer, this]
  · intro h
    have : computers.any (fun c => c.id == computer.id) = false := by
      simp only [List.any_eq_false]
      intro c hc
      simpa using h c hc
    simp [add_computer, this]

/-- Witness for C1 at concrete inputs. -/
theorem add_computer_duplicate_or_append_witness :
    add_computer [compA] compDup = ([compA], AddOutcome.duplicateId) ∧
    add_computer [compA] compB = ([compA, compB], AddOutcome.added) :=
  ⟨(add_computer_duplicate_or_append [compA] compDup).1
      ⟨compA, by simp, by decide⟩,
   (add_computer_duplicate_or_append [compA] compB).2
      (by intro c hc; simp at hc; subst hc; decide)⟩

/-- C6: `delete_by_id` on an id occurring in no record signals "not found",
leaves the collection unchanged, and does not invoke `save_data`. -/
theorem delete_by_id_not_found
    (computers : List GamingComputer) (x : Int)
    (h : ∀ c ∈ computers, c.id ≠ x) :
    delete_by_id computers x = (computers, DeleteOutcome.notFound, false) := by
  have hf : computers.filter (fun c => c.id != x) = computers :=
    List.filter_eq_self.2 (fun c hc => by simpa using h c hc)
  simp [delete_by_id, hf]

/-- Witness for C6 at a concrete input. -/
theorem delete_by_id_not_found_witness :
    delete_by_id [compA, compB] 5 = ([compA, compB], DeleteOutcome.notFound, false) :=
  delete_by_id_not_found [compA, compB] 5 (by intro c hc; fin_cases hc <;> decide)

/-- The record of the C7 scenario: id 1, price 100, flag false. -/
def saleBase : GamingComputer := ⟨1, "M", "P", 8, 256, "G", 100, false⟩

/-- The C7 record after the discount: price 90, flag true. -/
def saleMarked : GamingComputer := ⟨1, "M", "P", 8, 256, "G", 90, true⟩

/-- C7: on a collection whose record id 1 has price 100 and flag false,
`mark_as_sale 1` yields price 90 and flag true; re-applying it is a no-op
reporting the record is already on sale. -/
theorem mark_as_sale_scenario :
    mark_as_sale [saleBase] 1 = ([saleMarked], SaleOutcome.marked) ∧
    mark_as_sale [saleMarked] 1 = ([saleMarked], SaleOutcome.alreadyOnSale) := by
  refine ⟨?_, rfl⟩
  simp only [mark_as_sale, saleBase, saleMarked]
  norm_num

/-- C3: deserializing the serialization of any valid collection reproduces
an equal collection (array order preserved), for both the computer and the
equipment domains; in particular `add_computer` followed by save followed by
load reproduces the post-add collection. -/
theorem serialize_roundtrip :
    (∀ computers : List GamingComputer,
      load_computers (save_computers computers) = some computers) ∧
    (∀ items : List SportsEquipment,
      load_items (save_items items) = some items) ∧
    (∀ (computers : List GamingComputer) (c : GamingComputer),
      load_computers (save_computers (add_computer computers c).1)
        = some (add_computer computers c).1) :=
  ⟨load_save_computers, load_save_items,
   fun computers c => load_save_computers (add_computer computers c).1⟩

/-- C10: deserialization never fails when the required keys are present: a
missing `is_on_sale` / `is_epic` key defaults to `false`, and a `condition`
string matching no enum member maps to `GOOD` instead of raising. -/
theorem from_dict_defaults :
    (∀ (i : Int) (m p : String) (r s : Int) (g : String) (pr : ℚ),
      GamingComputer.from_dict ⟨some i, some m, some p, some r, some s, some g, some pr, none⟩
        = some ⟨i, m, p, r, s, g, pr, false⟩) ∧
    (∀ (i : Int) (t : String) (y : Int) (g : String) (d : Int) (r p : ℚ),
      Movie.from_dict ⟨some i, some t, some y, some g, some d, some r, some p, none⟩
        = some ⟨i, t, y, g, d, r, p, false⟩) ∧
    (∀ (i : Int) (n st : String) (w p : ℚ) (q : Int) (cv : String),
      SportsEquipment.from_dict ⟨some i, some n, some st, some w, some p, some q, some cv⟩
        = some ⟨i, n, st, w, p, q, conditionFromValue cv⟩ ∧
      ((∀ c : Condition, Condition.value c ≠ cv) →
        conditionFromValue cv = Condition.GOOD)) := by
  refine ⟨fun _ _ _ _ _ _ _ => rfl, fun _ _ _ _ _ _ _ => rfl,
    fun i n st w p q cv => ⟨rfl, fun h => ?_⟩⟩
  have hf : conditionMembers.find? (fun c => Condition.value c == cv) = none := by
    rw [List.find?_eq_none]
    intro c _
    simpa using h c
  simp [conditionFromValue, hf]

/-- Witness for C10 at concrete inputs, including an unrecognized condition
string. -/
theorem from_dict_defaults_witness :
    conditionFromValue "сломанный" = Condition.GOOD ∧
    GamingComputer.from_dict
        ⟨some 1, some "A", some "B", some 8, some 256, some "C", some 100, none⟩
      = some ⟨1, "A", "B", 8, 256, "C", 100, false⟩ :=
  ⟨(from_dict_defaults.2.2 1 "Лыжи" "лыжный спорт" 2 18000 8 "сломанный").2
      (by intro c; cases c <;> decide),
   from_dict_defaults.1 1 "A" "B" 8 256 "C" 100⟩

/-- The record of the C2 scenario: id 1, ram 5. -/
def ramComp : GamingComputer := ⟨1, "M", "P", 5, 256, "G", 100, false⟩

/-- C2 counterexample: `upgrade_ram` has no negativity guard — on a record
with ram 5, a delta of −10 is applied (leaving ram −5), the collection
changes, and `save_data` runs, contradicting the claim that every
quantity-like increment operation rejects a delta that would drive the
field below zero. -/
theorem upgrade_ram_negative_counterexample :
    upgrade_ram [ramComp] 1 (-10)
      = ([{ ramComp with ram := -5 }], true) ∧
    (upgrade_ram [ramComp] 1 (-10)).1 ≠ [ramComp] := by
  constructor
  · show _ = _
    simp only [upgrade_ram, ramComp]
    norm_num
  · intro h
    have h5 : ((upgrade_ram [ramComp] 1 (-10)).1.map GamingComputer.ram) = [5] := by
      rw [h]; rfl
    have hm5 : ((upgrade_ram [ramComp] 1 (-10)).1.map GamingComputer.ram) = [-5] := rfl
    rw [hm5] at h5
    simp at h5

/-- C2 amended: the guard holds for `write_off` — whenever every record
matching the id has stock strictly below the amount to write off (so the
delta would drive the quantity negative), `write_off` fails, returning
`false` with the collection unchanged and no persistence. -/
theorem write_off_insufficient
    (items : List SportsEquipment) (item_id quantity : Int)
    (h : ∀ it ∈ items, it.id = item_id → it.quantity < quantity) :
    write_off items item_id quantity = (items, false) := by
  induction items with
  | nil => rfl
  | cons it rest ih =>
    by_cases hid : it.id = item_id
    · have hq : it.quantity < quantity := h it (List.mem_cons_self it rest) hid
      have hbeq : (it.id == item_id) = true := by simpa using hid
      rcases le_or_lt quantity 0 with hq0 | hq0
      · simp [write_off, hbeq, hq0]
      · simp [write_off, hbeq, hq, not_le.2 hq0]
    · have hbeq : (it.id == item_id) = false := by simpa using hid
      have ihr : write_off rest item_id quantity = (rest, false) :=
        ih (fun x hx hxid => h x (List.mem_cons_of_mem it hx) hxid)
      simp [write_off, hbeq, ihr]

/-- The item of the C2 scenario on the inventory side: id 1, quantity 5. -/
def stockItem : SportsEquipment := ⟨1, "Мяч", "футбол", 1, 2500, 5, Condition.GOOD⟩

/-- Witness for the amended C2: on quantity 5, writing off 10 fails with
the collection unchanged. -/
theorem write_off_insufficient_witness :
    write_off [stockItem] 1 10 = ([stockItem], false) :=
  write_off_insufficient [stockItem] 1 10
    (by intro it hit _; simp at hit; subst hit; decide)

/-- Two records sharing id 1 (as a loaded document may contain). -/
def dupFirst : GamingComputer := ⟨1, "A", "P", 8, 256, "G", 100, false⟩

/-- Second record with the duplicated id 1. -/
def dupSecond : GamingComputer := ⟨1, "B", "P", 16, 512, "G", 200, false⟩

/-- C8 counterexample: on a collection holding two records with id 1,
`delete_by_id 1` removes both — the resulting length 0 is strictly below
length-before minus one, so the operation does not remove at most one
record. -/
theorem delete_by_id_counterexample :
    (delete_by_id [dupFirst, dupSecond] 1).1.length = 0 ∧
    ([dupFirst, dupSecond] : List GamingComputer).length = 2 ∧
    ¬ (([dupFirst, dupSecond] : List GamingComputer).length - 1
        ≤ (delete_by_id [dupFirst, dupSecond] 1).1.length) := by
  refine ⟨rfl, rfl, ?_⟩
  intro h
  have h0 : (delete_by_id [dupFirst, dupSecond] 1).1.length = 0 := rfl
  rw [h0] at h
  simp at h

/-- A `Nodup` list with all members equal to `x` has at most one member. -/
theorem length_le_one_of_nodup_of_all_eq {α : Type} {l : List α} {x : α}
    (hnd : l.Nodup) (hall : ∀ a ∈ l, a = x) : l.length ≤ 1 := by
  match l, hnd, hall with
  | [], _, _ => simp
  | [a], _, _ => simp
  | a :: b :: t, hnd, hall =>
    exfalso
    have ha : a = x := hall a (by simp)
    have hb : b = x := hall b (by simp)
    have := (List.nodup_cons.1 hnd).1
    exact this (by rw [ha, hb]; simp)

/-- The first component of `delete_by_id` is, in both branches, the filtered
list. -/
theorem delete_by_id_fst (computers : List GamingComputer) (x : Int) :
    (delete_by_id computers x).1
      = computers.filter (fun c => c.id != x) := by
  by_cases h : (computers.filter (fun c => c.id != x)).length < computers.length <;>
    simp [delete_by_id, h]

/-- C8 amended: on a collection whose record ids are pairwise distinct (the
invariant `add_computer` maintains), `delete_by_id` removes at most one
record: the length after is at least the length before minus one. -/
theorem delete_by_id_removes_at_most_one
    (computers : List GamingComputer) (x : Int)
    (h : (computers.map GamingComputer.id).Nodup) :
    computers.length - 1 ≤ (delete_by_id computers x).1.length := by
  rw [delete_by_id_fst]
  have hsplit :
      computers.length
      = (computers.filter (fun c => c.id != x)).length
        + (computers.filter (fun c => !(c.id != x))).length :=
    List.length_eq_length_filter_add (fun c => c.id != x)
  have hmatched : (computers.filter (fun c => !(c.id != x))).length ≤ 1 := by
    have hsub : ((computers.filter (fun c => !(c.id != x))).map GamingComputer.id).Sublist
        (computers.map GamingComputer.id) :=
      (List.filter_sublist computers).map GamingComputer.id
    have hnd : ((computers.filter (fun c => !(c.id != x))).map GamingComputer.id).Nodup :=
      h.sublist hsub
    have hall : ∀ a ∈ (computers.filter (fun c => !(c.id != x))).map GamingComputer.id,
        a = x := by
      intro a ha
      obtain ⟨c, hc, rfl⟩ := List.mem_map.1 ha
      have := (List.mem_filter.1 hc).2
      simpa using this
    have := length_le_one_of_nodup_of_all_eq hnd hall
    simpa using this
  omega

/-- Witness for the amended C8: deleting id 1 from a two-record collection
with distinct ids removes exactly one record. -/
theorem delete_by_id_removes_at_most_one_witness :
    ([compA, compB] : List GamingComputer).length - 1
      ≤ (delete_by_id [compA, compB] 1).1.length :=
  delete_by_id_removes_at_most_one [compA, compB] 1 (by decide)

/-- An inventory item in condition `NEW`. -/
def newItem : SportsEquipment := ⟨2, "Мяч", "баскетбол", 1, 3200, 30, Condition.NEW⟩

/-- C9 counterexample: `mark_for_repair` on a collection containing a record
in condition `NEW` leaves it in `NEW` (and marks nothing) — the transition
"new → needs repair" is not performed, contradicting the claimed transition
table. -/
theorem mark_for_repair_counterexample :
    mark_for_repair [newItem] = ([newItem], []) ∧
    (mark_for_repair [newItem]).1.map SportsEquipment.condition = [Condition.NEW] := by
  constructor <;> rfl

/-- C9 amended: `mark_for_repair` skips records in condition `new` (and
`needs repair`) unchanged and transitions every other record to
`needs repair`; the marked result collects exactly the transitioned
records. -/
theorem mark_for_repair_transitions (items : List SportsEquipment) :
    (mark_for_repair items).1
      = items.map (fun it =>
          if it.condition ≠ Condition.NEW ∧ it.condition ≠ Condition.NEEDS_REPAIR then
            { it with condition := Condition.NEEDS_REPAIR }
          else it) ∧
    (mark_for_repair items).2
      = (items.filter (fun it =>
            !(it.condition == Condition.NEW) && !(it.condition == Condition.NEEDS_REPAIR))).map
          (fun it => { it with condition := Condition.NEEDS_REPAIR }) := by
  induction items with
  | nil => exact ⟨rfl, rfl⟩
  | cons it rest ih =>
    by_cases hc : it.condition ≠ Condition.NEW ∧ it.condition ≠ Condition.NEEDS_REPAIR
    · have hb : (!(it.condition == Condition.NEW)
          && !(it.condition == Condition.NEEDS_REPAIR)) = true := by
        simp [hc.1, hc.2]
      constructor
      · simp only [mark_for_repair, repairStep, if_pos hc, List.map_cons, if_pos hc, ih.1]
      · simp only [mark_for_repair, repairStep, if_pos hc, List.filter_cons, hb,
          if_true, List.map_cons, ih.2]
    · have hb : (!(it.condition == Condition.NEW)
          && !(it.condition == Condition.NEEDS_REPAIR)) = false := by
        rcases not_and_or.1 hc with h | h
        · simp [not_not.1 h]
        · simp [not_not.1 h]
      constructor
      · simp only [mark_for_repair, repairStep, if_neg hc, List.map_cons, if_neg hc, ih.1]
      · simp only [mark_for_repair, repairStep, if_neg hc, List.filter_cons, hb, ih.2]
        simp

/-! ### Search stage decomposition (for C4) -/

/-- The `min_ram` stage of `search_by_criteria`. -/
def ramStage (min_ram : Option Int) (l : List GamingComputer) : List GamingComputer :=
  match min_ram with
  | some r => l.filter (fun c => r ≤ c.ram)
  | none => l

/-- The `max_price` stage of `search_by_criteria`. -/
def priceStage (max_price : Option ℚ) (l : List GamingComputer) : List GamingComputer :=
  match max_price with
  | some p => l.filter (fun c => c.price ≤ p)
  | none => l

/-- The `min_ssd` stage of `search_by_criteria`. -/
def ssdStage (min_ssd : Option Int) (l : List GamingComputer) : List GamingComputer :=
  match min_ssd with
  | some s => l.filter (fun c => s ≤ c.ssd)
  | none => l

/-- The `graphics_required` stage of `search_by_criteria` (skipped on a
falsy string). -/
def graphicsStage (graphics_required : Option String) (l : List GamingComputer) :
    List GamingComputer :=
  match graphics_required with
  | some g =>
    if g.isEmpty then l else l.filter (fun c => containsLower g c.graphics_card)
  | none => l

theorem search_by_criteria_eq_stages (computers : List GamingComputer)
    (mr : Option Int) (mp : Option ℚ) (ms : Option Int) (g : Option String) :
    search_by_criteria computers mr mp ms g
      = graphicsStage g (ssdStage ms (priceStage mp (ramStage mr computers))) := by
  cases mr <;> cases mp <;> cases ms <;> cases g <;> rfl

theorem ramStage_mono {l l' : List GamingComputer} (h : l.Sublist l') (mr : Option Int) :
    (ramStage mr l).Sublist (ramStage mr l') := by
  cases mr with
  | none => exact h
  | some r => exact h.filter _

theorem priceStage_mono {l l' : List GamingComputer} (h : l.Sublist l') (mp : Option ℚ) :
    (priceStage mp l).Sublist (priceStage mp l') := by
  cases mp with
  | none => exact h
  | some p => exact h.filter _

theorem ssdStage_mono {l l' : List GamingComputer} (h : l.Sublist l') (ms : Option Int) :
    (ssdStage ms l).Sublist (ssdStage ms l') := by
  cases ms with
  | none => exact h
  | some s => exact h.filter _

theorem graphicsStage_mono {l l' : List GamingComputer} (h : l.Sublist l')
    (g : Option String) : (graphicsStage g l).Sublist (graphicsStage g l') := by
  cases g with
  | none => exact h
  | some s =>
    by_cases he : s.isEmpty <;> simp only [graphicsStage, he, if_true, if_false]
    · exact h
    · exact h.filter _

theorem ramStage_sub (l : List GamingComputer) (r : Int) :
    (ramStage (some r) l).Sublist (ramStage none l) :=
  List.filter_sublist l

theorem priceStage_sub (l : List GamingComputer) (p : ℚ) :
    (priceStage (some p) l).Sublist (priceStage none l) :=
  List.filter_sublist l

theorem ssdStage_sub (l : List GamingComputer) (s : Int) :
    (ssdStage (some s) l).Sublist (ssdStage none l) :=
  List.filter_sublist l

theorem graphicsStage_sub (l : List GamingComputer) (g : String) :
    (graphicsStage (some g) l).Sublist (graphicsStage none l) := by
  by_cases he : g.isEmpty <;> simp only [graphicsStage, he, if_true, if_false]
  · exact List.Sublist.refl l
  · exact List.filter_sublist l

/-- The `year_from` stage of `search_by_year_range_and_genre`. -/
def yearFromStage (year_from : Option Int) (l : List Movie) : List Movie :=
  match year_from with
  | some y => l.filter (fun m => y ≤ m.year)
  | none => l

/-- The `year_to` stage of `search_by_year_range_and_genre`. -/
def yearToStage (year_to : Option Int) (l : List Movie) : List Movie :=
  match year_to with
  | some y => l.filter (fun m => m.year ≤ y)
  | none => l

/-- The `genre` stage of `search_by_year_range_and_genre`. -/
def genreStage (genre : Option String) (l : List Movie) : List Movie :=
  match genre with
  | some g => if g.isEmpty then l else l.filter (fun m => containsLower g m.genre)
  | none => l

theorem search_movies_eq_stages (movies : List Movie)
    (yf yt : Option Int) (g : Option String) :
    search_by_year_range_and_genre movies yf yt g
      = genreStage g (yearToStage yt (yearFromStage yf movies)) := by
  cases yf <;> cases yt <;> cases g <;> rfl

theorem yearToStage_mono {l l' : List Movie} (h : l.Sublist l') (yt : Option Int) :
    (yearToStage yt l).Sublist (yearToStage yt l') := by
  cases yt with
  | none => exact h
  | some y => exact h.filter _

theorem genreStage_mono {l l' : List Movie} (h : l.Sublist l') (g : Option String) :
    (genreStage g l).Sublist (genreStage g l') := by
  cases g with
  | none => exact h
  | some s =>
    by_cases he : s.isEmpty <;> simp only [genreStage, he, if_true, if_false]
    · exact h
    · exact h.filter _

/-- C4: search with every criterion omitted returns the full collection, and
adding any single criterion yields a subsequence of (hence never more than)
the result without it — criteria compose by AND and an omitted criterion
imposes no filter.  (In this embedding `search_by_criteria` and
`search_by_year_range_and_genre` are pure functions of the collection, so
they never mutate it.) -/
theorem search_narrowing :
    (∀ computers : List GamingComputer,
      search_by_criteria computers none none none none = computers) ∧
    (∀ (computers : List GamingComputer) (r : Int) (mp : Option ℚ)
        (ms : Option Int) (g : Option String),
      (search_by_criteria computers (some r) mp ms g).Sublist
        (search_by_criteria computers none mp ms g)) ∧
    (∀ (computers : List GamingComputer) (mr : Option Int) (p : ℚ)
        (ms : Option Int) (g : Option String),
      (search_by_criteria computers mr (some p) ms g).Sublist
        (search_by_criteria computers mr none ms g)) ∧
    (∀ (computers : List GamingComputer) (mr : Option Int) (mp : Option ℚ)
        (s : Int) (g : Option String),
      (search_by_criteria computers mr mp (some s) g).Sublist
        (search_by_criteria computers mr mp none g)) ∧
    (∀ (computers : List GamingComputer) (mr : Option Int) (mp : Option ℚ)
        (ms : Option Int) (g : String),
      (search_by_criteria computers mr mp ms (some g)).Sublist
        (search_by_criteria computers mr mp ms none)) ∧
    (∀ movies : List Movie,
      search_by_year_range_and_genre movies none none none = movies) ∧
    (∀ (movies : List Movie) (y : Int) (yt : Option Int) (g : Option String),
      (search_by_year_range_and_genre movies (some y) yt g).Sublist
        (search_by_year_range_and_genre movies none yt g)) ∧
    (∀ (movies : List Movie) (yf : Option Int) (y : Int) (g : Option String),
      (search_by_year_range_and_genre movies yf (some y) g).Sublist
        (search_by_year_range_and_genre movies yf none g)) ∧
    (∀ (movies : List Movie) (yf yt : Option Int) (g : String),
      (search_by_year_range_and_genre movies yf yt (some g)).Sublist
        (search_by_year_range_and_genre movies yf yt none)) := by
  refine ⟨fun _ => rfl, ?_, ?_, ?_, ?_, fun _ => rfl, ?_, ?_, ?_⟩
  · intro computers r mp ms g
    rw [search_by_criteria_eq_stages, search_by_criteria_eq_stages]
    exact graphicsStage_mono (ssdStage_mono (priceStage_mono
      (ramStage_sub computers r) mp) ms) g
  · intro computers mr p ms g
    rw [search_by_criteria_eq_stages, search_by_criteria_eq_stages]
    exact graphicsStage_mono (ssdStage_mono (priceStage_sub _ p) ms) g
  · intro computers mr mp s g
    rw [search_by_criteria_eq_stages, search_by_criteria_eq_stages]
    exact graphicsStage_mono (ssdStage_sub _ s) g
  · intro computers mr mp ms g
    rw [search_by_criteria_eq_stages, search_by_criteria_eq_stages]
    exact graphicsStage_sub _ g
  · intro movies y yt g
    rw [search_movies_eq_stages, search_movies_eq_stages]
    exact genreStage_mono (yearToStage_mono (List.filter_sublist movies) yt) g
  · intro movies yf y g
    rw [search_movies_eq_stages, search_movies_eq_stages]
    exact genreStage_mono (List.filter_sublist _) g
  · intro movies yf yt g
    rw [search_movies_eq_stages, search_movies_eq_stages]
    by_cases he : g.isEmpty <;> simp only [genreStage, he, if_true, if_false]
    · exact List.Sublist.refl _
    · exact List.filter_sublist _

/-! ### Stable-sort lemmas (for C5) -/

section SortLemmas

variable {α : Type} {β : Type} [LinearOrder β]

theorem filter_orderedInsert_neg (r : α → α → Prop) [DecidableRel r] (p : α → Bool)
    (a : α) (l : List α) (ha : p a = false) :
    (l.orderedInsert r a).filter p = l.filter p := by
  induction l with
  | nil => simp [List.orderedInsert, ha]
  | cons b t ih =>
    rw [List.orderedInsert]
    by_cases h : r a b
    · rw [if_pos h]
      simp [List.filter_cons, ha]
    · rw [if_neg h, List.filter_cons, List.filter_cons]
      cases hpb : p b <;> simp [ih]

theorem filter_orderedInsert_pos (r : α → α → Prop) [DecidableRel r] (p : α → Bool)
    (a : α) (l : List α) (ha : p a = true)
    (h : ∀ b, ¬ r a b → p b = false) :
    (l.orderedInsert r a).filter p = a :: l.filter p := by
  induction l with
  | nil => simp [List.orderedInsert, ha]
  | cons b t ih =>
    rw [List.orderedInsert]
    by_cases hr : r a b
    · rw [if_pos hr]
      simp [List.filter_cons, ha]
    · rw [if_neg hr]
      have hb : p b = false := h b hr
      rw [List.filter_cons, List.filter_cons, hb]
      simp [ih]

theorem filter_insertionSort_eq (r : α → α → Prop) [DecidableRel r] (p : α → Bool)
    (h : ∀ a b, p a = true → ¬ r a b → p b = false) :
    ∀ l : List α, (List.insertionSort r l).filter p = l.filter p := by
  intro l
  induction l with
  | nil => rfl
  | cons a t ih =>
    rw [List.insertionSort]
    cases ha : p a with
    | true =>
      rw [filter_orderedInsert_pos r p a _ ha (fun b hr => h a b ha hr), ih, List.filter_cons, ha]
      simp
    | false =>
      rw [filter_orderedInsert_neg r p a _ ha, ih, List.filter_cons, ha]
      simp

theorem insertionSort_desc_eq_reverse (key : α → β) (l : List α)
    (hnd : (l.map key).Nodup) :
    List.insertionSort (fun a b => key b ≤ key a) l
      = (List.insertionSort (fun a b => key a ≤ key b) l).reverse := by
  haveI hTd : IsTotal α (fun a b => key b ≤ key a) := ⟨fun a b => le_total (key b) (key a)⟩
  haveI hRd : IsTrans α (fun a b => key b ≤ key a) :=
    ⟨fun _ _ _ hab hbc => le_trans hbc hab⟩
  haveI hTa : IsTotal α (fun a b => key a ≤ key b) := ⟨fun a b => le_total (key a) (key b)⟩
  haveI hRa : IsTrans α (fun a b => key a ≤ key b) :=
    ⟨fun _ _ _ hab hbc => le_trans hab hbc⟩
  haveI : IsAntisymm α (fun a b => key b < key a ∨ a = b) := ⟨by
    rintro a b (h1 | h1) (h2 | h2)
    · exact absurd h2 (lt_asymm h1)
    · exact h2.symm
    · exact h1
    · exact h1⟩
  apply List.eq_of_perm_of_sorted (r := fun a b => key b < key a ∨ a = b)
  · exact (List.perm_insertionSort _ l).trans
      ((List.perm_insertionSort (fun a b => key a ≤ key b) l).symm.trans
        (List.reverse_perm _).symm)
  · have hd : (List.insertionSort (fun a b => key b ≤ key a) l).Sorted
        (fun a b => key b ≤ key a) := List.sorted_insertionSort _ l
    have hperm : List.Perm (List.insertionSort (fun a b => key b ≤ key a) l) l :=
      List.perm_insertionSort _ l
    have hnd' : ((List.insertionSort (fun a b => key b ≤ key a) l).map key).Nodup :=
      ((hperm.map key).nodup_iff).2 hnd
    have hne : (List.insertionSort (fun a b => key b ≤ key a) l).Pairwise
        (fun a b => key a ≠ key b) := List.pairwise_map.1 hnd'
    refine List.Pairwise.imp ?_ (hd.and hne)
    rintro a b ⟨hle, hne'⟩
    exact Or.inl (lt_of_le_of_ne hle (Ne.symm hne'))
  · have ha : (List.insertionSort (fun a b => key a ≤ key b) l).Sorted
        (fun a b => key a ≤ key b) := List.sorted_insertionSort _ l
    have hrev : (List.insertionSort (fun a b => key a ≤ key b) l).reverse.Pairwise
        (fun a b => key b ≤ key a) := List.pairwise_reverse.2 ha
    have hperm : List.Perm (List.insertionSort (fun a b => key a ≤ key b) l).reverse l :=
      (List.reverse_perm _).trans (List.perm_insertionSort _ l)
    have hnd' : ((List.insertionSort (fun a b => key a ≤ key b) l).reverse.map key).Nodup :=
      ((hperm.map key).nodup_iff).2 hnd
    have hne : (List.insertionSort (fun a b => key a ≤ key b) l).reverse.Pairwise
        (fun a b => key a ≠ key b) := List.pairwise_map.1 hnd'
    refine List.Pairwise.imp ?_ (hrev.and hne)
    rintro a b ⟨hle, hne'⟩
    exact Or.inl (lt_of_le_of_ne hle (Ne.symm hne'))

end SortLemmas

/-- C5: for both embedded sort operations, sorting descending yields exactly
the reverse of sorting ascending whenever all records have distinct keys;
and in both directions the records sharing any fixed key value keep their
original relative order (stability, stated as: the subsequence of records
with that key value is unchanged by the sort). -/
theorem sort_reverse_and_stable :
    (∀ computers : List GamingComputer,
      (computers.map GamingComputer.price).Nodup →
        sort_by_price computers false = (sort_by_price computers true).reverse) ∧
    (∀ (computers : List GamingComputer) (ascending : Bool) (q : ℚ),
      (sort_by_price computers ascending).filter (fun c => c.price == q)
        = computers.filter (fun c => c.price == q)) ∧
    (∀ movies : List Movie,
      (movies.map Movie.duration).Nodup →
        sort_by_duration movies false = (sort_by_duration movies true).reverse) ∧
    (∀ (movies : List Movie) (ascending : Bool) (d : Int),
      (sort_by_duration movies ascending).filter (fun m => m.duration == d)
        = movies.filter (fun m => m.duration == d)) := by
  refine ⟨?_, ?_, ?_, ?_⟩
  · intro computers hnd
    simpa [sort_by_price] using
      insertionSort_desc_eq_reverse (fun c : GamingComputer => c.price) computers hnd
  · intro computers ascending q
    cases ascending with
    | true =>
      simp only [sort_by_price, if_true]
      refine filter_insertionSort_eq _ _ ?_ computers
      intro a b ha hr
      have hq : a.price = q := by simpa using ha
      have hlt : b.price < a.price := lt_of_not_le hr
      simp [hlt.ne, hq ▸ hlt.ne]
    | false =>
      simp only [sort_by_price, if_false]
      refine filter_insertionSort_eq _ _ ?_ computers
      intro a b ha hr
      have hq : a.price = q := by simpa using ha
      have hlt : a.price < b.price := lt_of_not_le hr
      simp [hq ▸ hlt.ne']
  · intro movies hnd
    simpa [sort_by_duration] using
      insertionSort_desc_eq_reverse (fun m : Movie => m.duration) movies hnd
  · intro movies ascending d
    cases ascending with
    | true =>
      simp only [sort_by_duration, if_true]
      refine filter_insertionSort_eq _ _ ?_ movies
      intro a b ha hr
      have hq : a.duration = d := by simpa using ha
      have hlt : b.duration < a.duration := lt_of_not_le hr
      simp [hq ▸ hlt.ne]
    | false =>
      simp only [sort_by_duration, if_false]
      refine filter_insertionSort_eq _ _ ?_ movies
      intro a b ha hr
      have hq : a.duration = d := by simpa using ha
      have hlt : a.duration < b.duration := lt_of_not_le hr
      simp [hq ▸ hlt.ne']

/-- A concrete movie list with distinct durations, for the C5 witness. -/
def movieShort : Movie := ⟨15, "Король Лев", 1994, "мультфильм", 88, 85 / 10, 300, false⟩

/-- Second concrete movie for the C5 witness. -/
def movieLong : Movie := ⟨11, "Список Шиндлера", 1993, "драма", 195, 9, 360, false⟩

/-- Witness for C5: both distinct-key hypotheses discharged at concrete
collections. -/
theorem sort_reverse_and_stable_witness :
    sort_by_price [compA, compB] false = (sort_by_price [compA, compB] true).reverse ∧
    sort_by_duration [movieShort, movieLong] false
      = (sort_by_duration [movieShort, movieLong] true).reverse :=
  ⟨sort_reverse_and_stable.1 [compA, compB]
      (by simp [compA, compB]),
   sort_reverse_and_stable.2.2.1 [movieShort, movieLong] (by decide)⟩

end Spec2Proof
